import Mathlib

/-!
Shallow embedding of the gfibot dataset-building pipeline
(src/gfibot/data/dataset.py), together with proofs about the
natural-language specification of that pipeline.

Modelling conventions:
* Python datetimes are modelled as integers (only their total order and
  differences matter to the pipeline).
* The document store (MongoDB via mongoengine) is modelled as explicit
  lists of records inside a `DB` structure; a query `.first()` is the
  head of the list filtered in insertion order, `.delete()` removes the
  matching records, and `.save()` of a new document appends it.
* External collaborators excluded by the spec (the WordNet lemmatizer
  and the textstat readability scores) are function parameters, bundled
  in a `Collab` structure.
* A Python exception escaping the code (for instance dereferencing a
  missing record) is modelled by a `crash` result which aborts the run
  and leaves the store in its state at the point of the raise.
-/

/-- The backtick character, written via its code point. -/
def backtick : Char := Char.ofNat 96

/-- Characters matched by a Python regex word class: ASCII letters,
digits and underscore. -/
def isWordChar (c : Char) : Bool :=
  c.isAlpha || c.isDigit || c = '_'

/-- Characters matched inside a URL-like token by the source pattern,
namely colon, slash, dot and word characters. -/
def isUrlChar (c : Char) : Bool :=
  c = ':' || c = '/' || c = '.' || isWordChar c

/-- Does the character list start with the four characters of http? -/
def startsHttp (l : List Char) : Bool :=
  decide (l.take 4 = ['h', 't', 't', 'p'])

/-- Fuel-indexed left-to-right scan of the source regex for URL-like
tokens; every step consumes at least one character, so fuel equal to
the length of the text makes the fuel bound unreachable (the fuel only
serves to make the recursion structural and kernel-computable). -/
def urlScanF : Nat → List Char → List (List Char) × List Char
  | 0, l => ([], l)
  | _ + 1, [] => ([], [])
  | fuel + 1, c :: cs =>
    if startsHttp (c :: cs) then
      let rest := (c :: cs).drop 4
      let run := rest.takeWhile isUrlChar
      if run.length = 0 then
        let r := urlScanF fuel cs
        (r.1, c :: r.2)
      else
        let r := urlScanF fuel (rest.dropWhile isUrlChar)
        ((['h', 't', 't', 'p'] ++ run) :: r.1, r.2)
    else
      let r := urlScanF fuel cs
      (r.1, c :: r.2)

/-- One left-to-right scan of the source regex for URL-like tokens:
returns the list of non-overlapping matches together with the text with
the matches removed.  This is the common core of the source functions
that count and strip URLs. -/
def urlScan (l : List Char) : List (List Char) × List Char :=
  urlScanF l.length l

/-- Does the character list start with three backticks? -/
def startsTriple (l : List Char) : Bool :=
  decide (l.take 3 = [backtick, backtick, backtick])

/-- Split a character list at the first occurrence of three backticks:
the part before it and the part after it. -/
def splitAtTriple : List Char → Option (List Char × List Char)
  | [] => none
  | c :: cs =>
    if startsTriple (c :: cs) then some ([], (c :: cs).drop 3)
    else
      match splitAtTriple cs with
      | none => none
      | some p => some (c :: p.1, p.2)

/-- The non-greedy search for the closing fence: given the text after
an opening triple backtick, find the earliest closing triple backtick
with a non-empty body before it; returns the body and the tail after
the closing fence. -/
def fenceMatch : List Char → Option (List Char × List Char)
  | [] => none
  | c :: cs =>
    match splitAtTriple cs with
    | none => none
    | some p => some (c :: p.1, p.2)

/-- Fuel-indexed left-to-right scan of the DOTALL non-greedy
fenced-code-block regex of the source; as with the URL scan, fuel equal
to the text length makes the fuel bound unreachable. -/
def codeScanF : Nat → List Char → Nat × List Char
  | 0, l => (0, l)
  | _ + 1, [] => (0, [])
  | fuel + 1, c :: cs =>
    if startsTriple (c :: cs) then
      match fenceMatch ((c :: cs).drop 3) with
      | some p =>
        let r := codeScanF fuel p.2
        (r.1 + 1, r.2)
      | none =>
        let r := codeScanF fuel cs
        (r.1, c :: r.2)
    else
      let r := codeScanF fuel cs
      (r.1, c :: r.2)

/-- One left-to-right scan of the DOTALL non-greedy fenced-code-block
regex of the source: count of non-overlapping matches and the text with
matches removed. -/
def codeScan (l : List Char) : Nat × List Char :=
  codeScanF l.length l

/-- Fuel-indexed computation of the maximal runs of characters
satisfying p, in order; this is regex findall of a one-class-plus
pattern, with fuel as above. -/
def runsByF (p : Char → Bool) : Nat → List Char → List (List Char)
  | 0, _ => []
  | _ + 1, [] => []
  | fuel + 1, c :: cs =>
    if p c then (c :: cs.takeWhile p) :: runsByF p fuel (cs.dropWhile p)
    else runsByF p fuel cs

/-- Maximal runs of characters satisfying p, in order. -/
def runsBy (p : Char → Bool) (l : List Char) : List (List Char) :=
  runsByF p l.length l

/-- Count of fenced code blocks in a nullable string. -/
def _count_code_snippets : Option String → Nat
  | none => 0
  | some s => (codeScan s.data).1

/-- The nullable string with its fenced code blocks removed. -/
def _delete_code_snippets : Option String → String
  | none => ""
  | some s => String.mk (codeScan s.data).2

/-- The suffix test used by the source on a URL-like token: does it end
in jpg, jpeg or png (no dot required by the code). -/
def isImgToken (s2 : List Char) : Bool :=
  "jpg".data.isSuffixOf s2 || "jpeg".data.isSuffixOf s2 || "png".data.isSuffixOf s2

/-- Count of URL-like tokens that do not end in an image suffix. -/
def _count_urls : Option String → Nat
  | none => 0
  | some s => ((urlScan s.data).1.filter (fun s2 => !(isImgToken s2))).length

/-- Count of URL-like tokens that end in an image suffix. -/
def _count_imgs : Option String → Nat
  | none => 0
  | some s => ((urlScan s.data).1.filter (fun s2 => isImgToken s2)).length

/-- The nullable string with every URL-like token removed. -/
def _delete_urls : Option String → String
  | none => ""
  | some s => String.mk (urlScan s.data).2

/-- Whitespace-delimited word count of a nullable string. -/
def _count_text_len : Option String → Nat
  | none => 0
  | some s => (runsBy (fun c => !c.isWhitespace) s.data).length

/-- A label-categorizer rule: either a single keyword (member or
substring of a token) or a tuple of keywords that must all be members. -/
inductive LabelRule where
  | kw (s : String)
  | combo (ws : List String)
deriving DecidableEq

/-- The fixed label categories of the source rule table. -/
inductive Cat where
  | bug | feature | test | build | doc | coding | enhance | gfi
  | medium | major | triaged | untriaged
deriving DecidableEq

/-- The keyword-rule table of the source, copied verbatim (including
the duplicated starter entry). -/
def keywordRules : Cat → List LabelRule
  | .bug => [.kw "bug"]
  | .feature => [.kw "feature"]
  | .test => [.kw "test", .kw "testing"]
  | .build => [.kw "ci", .kw "build"]
  | .doc => [.kw "doc", .kw "document", .kw "documentation"]
  | .coding => [.kw "code", .kw "coding", .kw "program", .kw "programming"]
  | .enhance => [.kw "enhance", .kw "enhancement"]
  | .gfi =>
    [.kw "easy", .kw "starter", .kw "newbie", .kw "beginner", .kw "starter",
     .kw "minor", .kw "novice", .combo ["good", "first"],
     .combo ["low", "fruit"], .combo ["effort", "low"],
     .combo ["first", "time"], .combo ["first", "timer"],
     .combo ["first", "pr"], .combo ["up", "for", "grab"]]
  | .medium => [.kw "medium", .kw "intermediate"]
  | .major =>
    [.kw "important", .kw "major", .kw "breaking", .kw "difficult",
     .kw "hard", .kw "core", .kw "serious", .combo ["priority", "p1"],
     .combo ["priority", "high"], .combo ["priority", "critical"]]
  | .triaged =>
    [.kw "triaged", .kw "triage", .kw "progress", .kw "haspr",
     .kw "fixed", .kw "wontfix", .combo ["ha", "pr"], .combo ["ha", "fix"]]
  | .untriaged =>
    [.kw "untriaged", .combo ["need", "triage"], .combo ["needed", "triage"],
     .combo ["no", "triage"]]

/-- Contiguous-substring test on character lists, the analogue of the
Python in operator on strings. -/
def isInfixL (p : List Char) : List Char → Bool
  | [] => p.isEmpty
  | c :: cs => p.isPrefixOf (c :: cs) || isInfixL p cs

/-- Whether one rule matches the lemmatized word list of a label. -/
def ruleMatches (words : List String) : LabelRule → Bool
  | .kw r => words.contains r || words.any (fun w => isInfixL r.data w.data)
  | .combo ws => ws.all (fun w => words.contains w)

/-- The lemmatized word tokens of a label: lower-case, underscores to
spaces, word-character runs, each lemmatized by the external
collaborator lem. -/
def labelWords (lem : String → String) (label : String) : List String :=
  (runsBy isWordChar
    ((label.data.map Char.toLower).map (fun c => if c = '_' then ' ' else c))).map
    (fun w => lem (String.mk w))

/-- The per-label, per-category increment of the source loop: 1 when
some rule of the category matches, 0 otherwise (never more than 1 even
when several rules match). -/
def catIncrement (lem : String → String) (label : String) (c : Cat) : Nat :=
  if (keywordRules c).any (ruleMatches (labelWords lem label)) then 1 else 0

/-- Per-category label counts, one field per category of the source
rule table. -/
structure LabelCategory where
  bug : Nat := 0
  feature : Nat := 0
  test : Nat := 0
  build : Nat := 0
  doc : Nat := 0
  coding : Nat := 0
  enhance : Nat := 0
  gfi : Nat := 0
  medium : Nat := 0
  major : Nat := 0
  triaged : Nat := 0
  untriaged : Nat := 0
deriving DecidableEq

/-- Projection of a category count by category tag. -/
def LabelCategory.get (lc : LabelCategory) : Cat → Nat
  | .bug => lc.bug
  | .feature => lc.feature
  | .test => lc.test
  | .build => lc.build
  | .doc => lc.doc
  | .coding => lc.coding
  | .enhance => lc.enhance
  | .gfi => lc.gfi
  | .medium => lc.medium
  | .major => lc.major
  | .triaged => lc.triaged
  | .untriaged => lc.untriaged

/-- The body of the outer loop of the label categorizer: add the
per-category increments of one label to the running counts. -/
def addLabel (lem : String → String) (acc : LabelCategory) (label : String) :
    LabelCategory where
  bug := acc.bug + catIncrement lem label .bug
  feature := acc.feature + catIncrement lem label .feature
  test := acc.test + catIncrement lem label .test
  build := acc.build + catIncrement lem label .build
  doc := acc.doc + catIncrement lem label .doc
  coding := acc.coding + catIncrement lem label .coding
  enhance := acc.enhance + catIncrement lem label .enhance
  gfi := acc.gfi + catIncrement lem label .gfi
  medium := acc.medium + catIncrement lem label .medium
  major := acc.major + catIncrement lem label .major
  triaged := acc.triaged + catIncrement lem label .triaged
  untriaged := acc.untriaged + catIncrement lem label .untriaged

/-- The label categorizer of the source: fold the per-label increments
over the label list, starting from all-zero counts. -/
def _get_categorized_labels (lem : String → String) (labels : List String) :
    LabelCategory :=
  labels.foldl (addLabel lem) {}

structure RepoCommit where
  owner : String
  name : String
  author : String
  committer : String
  authored_at : Int
  committed_at : Int
deriving DecidableEq

structure IssueEvent where
  type : String
  actor : Option String
  label : String
  comment : String
  time : Int
deriving DecidableEq

structure RepoIssue where
  owner : String
  name : String
  number : Int
  user : String
  state : String
  title : String
  body : Option String
  is_pull : Bool
  created_at : Int
  closed_at : Option Int
deriving DecidableEq

structure ResolvedIssue where
  owner : String
  name : String
  number : Int
  created_at : Int
  resolved_at : Int
  resolver_commit_num : Int
  events : List IssueEvent
deriving DecidableEq

structure OpenIssue where
  owner : String
  name : String
  number : Int
  created_at : Int
  updated_at : Int
  events : List IssueEvent
deriving DecidableEq

structure MonthCount where
  month : Int
  count : Int
deriving DecidableEq

structure Repo where
  owner : String
  name : String
  monthly_stars : List MonthCount
  monthly_pulls : List MonthCount
  monthly_commits : List MonthCount
deriving DecidableEq

structure UserFeature where
  name : String
  n_commits : Nat
  n_issues : Nat
  n_pulls : Nat
  resolver_commits : List Int
deriving DecidableEq

/-- The persisted Snapshot record, one field per assignment in the
source builder. -/
structure Dataset where
  owner : String
  name : String
  number : Int
  created_at : Int
  closed_at : Option Int
  before : Int
  resolver_commit_num : Int
  title : String
  body : String
  len_title : Nat
  len_body : Nat
  n_code_snips : Nat
  n_urls : Nat
  n_imgs : Nat
  coleman_liau_index : Int
  flesch_reading_ease : Int
  flesch_kincaid_grade : Int
  automated_readability_index : Int
  labels : List String
  label_category : LabelCategory
  reporter_feat : UserFeature
  owner_feat : UserFeature
  prev_resolver_commits : List Int
  n_stars : Int
  n_pulls : Int
  n_commits : Int
  n_contributors : Nat
  n_closed_issues : Nat
  n_open_issues : Nat
  r_open_issues : ℚ
  issue_close_time : ℚ
  comments : List String
  events : List String
  comment_users : List UserFeature
  event_users : List UserFeature
deriving DecidableEq

/-- The lock/progress record guarding one pipeline run. -/
structure DatasetBuildLog where
  owner : String
  name : String
  pid : Int
  github_user_login : Option String
  update_begin : Int
  update_end : Option Int
  updated_open_issues : Option Nat
  updated_resolved_issues : Option Nat
deriving DecidableEq

/-- The document store: one list of records per collection the pipeline
touches, in insertion order. -/
structure DB where
  commits : List RepoCommit
  issues : List RepoIssue
  resolved : List ResolvedIssue
  open_issues : List OpenIssue
  repos : List Repo
  datasets : List Dataset
  buildLogs : List DatasetBuildLog
deriving DecidableEq

/-- External collaborators excluded by the spec: the lemmatizer and the
four readability scores, each a black-box function of a string. -/
structure Collab where
  lem : String → String
  coleman_liau_index : String → Int
  flesch_reading_ease : String → Int
  flesch_kincaid_grade : String → Int
  automated_readability_index : String → Int

/-- Comparison of a nullable timestamp against a cutoff; the source
assumes a closed issue always carries its closing time, so the none
case is unreachable on well-formed data. -/
def optLe (a : Option Int) (t : Int) : Bool :=
  match a with
  | none => false
  | some x => decide (x ≤ t)

/-- The commit query of the user aggregator: repository key, both
timestamps at or before the cutoff, and committer equal to the user or
author equal to the user with the web-flow committer. -/
def commitQ (owner name user : String) (t : Int) (c : RepoCommit) : Bool :=
  decide (c.owner = owner) && decide (c.name = name) &&
  decide (c.authored_at ≤ t) && decide (c.committed_at ≤ t) &&
  (decide (c.committer = user) ||
    (decide (c.author = user) && decide (c.committer = "web-flow")))

/-- The issue query of the user aggregator: repository key, reporter
equal to the user, created at or before the cutoff. -/
def issueQ (owner name user : String) (t : Int) (i : RepoIssue) : Bool :=
  decide (i.owner = owner) && decide (i.name = name) &&
  decide (i.user = user) && decide (i.created_at ≤ t)

/-- The user feature aggregator of the source, with its special case
for the deleted-account sentinel. -/
def _get_user_data (db : DB) (owner name user : String) (t : Int) : UserFeature :=
  if user = "ghost" then
    { name := user, n_commits := 0, n_issues := 0, n_pulls := 0,
      resolver_commits := [] }
  else
    let usrcmts := db.commits.filter (commitQ owner name user t)
    let usriss := db.issues.filter (fun i => issueQ owner name user t i && !i.is_pull)
    let usrpulls := db.issues.filter (fun i => issueQ owner name user t i && i.is_pull)
    let closedNums :=
      (usriss.filter (fun i => decide (i.state = "closed") && optLe i.closed_at t)).map
        (fun i => i.number)
    let usrissResolved :=
      db.resolved.filter (fun ri =>
        decide (ri.owner = owner) && decide (ri.name = name) &&
        closedNums.contains ri.number)
    { name := user
      n_commits := usrcmts.length
      n_issues := usriss.length
      n_pulls := usrpulls.length
      resolver_commits := usrissResolved.map (fun ri => ri.resolver_commit_num) }

structure Background where
  contributors : List String
  n_closed : Nat
  n_open : Nat
  close_times : List Int
deriving DecidableEq

/-- Insertion-ordered set insertion, modelling Python set add for the
purposes of membership and cardinality. -/
def insertNew (l : List String) (x : String) : List String :=
  if l.contains x then l else l ++ [x]

/-- The background aggregator of the source. -/
def _get_background_data (db : DB) (owner name : String) (t : Int) : Background :=
  let all_issues := db.issues.filter (fun i =>
    decide (i.owner = owner) && decide (i.name = name) && !i.is_pull &&
    decide (i.created_at ≤ t))
  let all_commits := db.commits.filter (fun c =>
    decide (c.owner = owner) && decide (c.name = name) &&
    decide (c.authored_at ≤ t) && decide (c.committed_at ≤ t))
  let isClosed := fun (i : RepoIssue) => decide (i.state = "closed") && optLe i.closed_at t
  let closed := all_issues.filter isClosed
  { contributors :=
      all_commits.foldl (fun s c => insertNew (insertNew s c.author) c.committer) []
    n_closed := closed.length
    n_open := (all_issues.filter (fun i => !(isClosed i))).length
    close_times := closed.map (fun i => i.closed_at.getD 0 - i.created_at) }

/-- The accumulator of the event replay: label list, comment list and
the two insertion-ordered actor sets. -/
structure DynAcc where
  labels : List String
  comments : List String
  comment_users : List String
  event_users : List String
deriving DecidableEq

/-- Add a non-null, non-sentinel actor to the all-actors set of the
replay accumulator. -/
def addEventActor (acc : DynAcc) (actor : Option String) : DynAcc :=
  match actor with
  | some a =>
    if a ≠ "ghost" then { acc with event_users := insertNew acc.event_users a }
    else acc
  | none => acc

/-- Add a non-null, non-sentinel actor to the commenter set of the
replay accumulator. -/
def addCommentActor (acc : DynAcc) (actor : Option String) : DynAcc :=
  match actor with
  | some a =>
    if a ≠ "ghost" then { acc with comment_users := insertNew acc.comment_users a }
    else acc
  | none => acc

/-- One iteration of the replay loop of the source: events after the
cutoff are skipped; the actor (when present and not the deleted-account
sentinel) always joins the all-actors set; then the event type
dispatches on labeled, unlabeled and commented. -/
def dynStep (t : Int) (acc : DynAcc) (e : IssueEvent) : DynAcc :=
  if e.time ≤ t then
    let acc1 := addEventActor acc e.actor
    if e.type = "labeled" then { acc1 with labels := acc1.labels ++ [e.label] }
    else if e.type = "unlabeled" then
      if acc1.labels.contains e.label then
        { acc1 with labels := acc1.labels.erase e.label }
      else acc1
    else if e.type = "commented" then
      addCommentActor { acc1 with comments := acc1.comments ++ [e.comment] } e.actor
    else acc1
  else acc

structure Dynamics where
  labels : List String
  comments : List String
  comment_users : List UserFeature
  event_users : List UserFeature
deriving DecidableEq

/-- The dynamics replayer of the source: fold the events in order, then
resolve every collected actor into user features at the same cutoff. -/
def _get_dynamics_data (db : DB) (owner name : String)
    (events : List IssueEvent) (t : Int) : Dynamics :=
  let acc := events.foldl (dynStep t) ⟨[], [], [], []⟩
  { labels := acc.labels
    comments := acc.comments
    comment_users := acc.comment_users.map (fun u => _get_user_data db owner name u t)
    event_users := acc.event_users.map (fun u => _get_user_data db owner name u t) }

/-- The polymorphic issue input of the snapshot builder: a resolved or
an open issue. -/
inductive InputIssue where
  | resolved (r : ResolvedIssue)
  | opened (o : OpenIssue)
deriving DecidableEq

def InputIssue.owner : InputIssue → String
  | .resolved r => r.owner
  | .opened o => o.owner

def InputIssue.name : InputIssue → String
  | .resolved r => r.name
  | .opened o => o.name

def InputIssue.number : InputIssue → Int
  | .resolved r => r.number
  | .opened o => o.number

def InputIssue.events : InputIssue → List IssueEvent
  | .resolved r => r.events
  | .opened o => o.events

/-- The resolver commit number stored in a snapshot: the issue's own
for a resolved input, the sentinel -1 for an open input. -/
def InputIssue.rcn : InputIssue → Int
  | .resolved r => r.resolver_commit_num
  | .opened _ => -1

/-- Ascending insertion sort on integers, used for the median. -/
def insertSorted (x : Int) : List Int → List Int
  | [] => [x]
  | y :: ys => if x ≤ y then x :: y :: ys else y :: insertSorted x ys

def sortInts (l : List Int) : List Int := l.foldr insertSorted []

/-- The statistical median of a list of integer durations, as numpy
computes it: middle element of the sorted list, or the mean of the two
middle elements for an even length. -/
def medianQ (l : List Int) : ℚ :=
  let s := sortInts l
  let L := s.length
  if L % 2 = 1 then ((s.getD (L / 2) 0 : Int) : ℚ)
  else ((s.getD (L / 2 - 1) 0 + s.getD (L / 2) 0 : Int) : ℚ) / 2

/-- The key predicate of the snapshot store: same owner, name and issue
number. -/
def dsKeyMatch (owner name : String) (number : Int) (d : Dataset) : Bool :=
  decide (d.owner = owner) && decide (d.name = name) && decide (d.number = number)

/-- Step 1 of the builder: a resolved input first deletes every
snapshot for its key carrying the stale sentinel resolver commit
number -1; an open input deletes nothing. -/
def staleDelete (iss : InputIssue) (db : DB) : DB :=
  match iss with
  | .resolved _ =>
    { db with datasets := db.datasets.filter (fun d =>
        !(dsKeyMatch iss.owner iss.name iss.number d &&
          decide (d.resolver_commit_num = -1))) }
  | .opened _ => db

/-- Step 2 of the builder: the first persisted snapshot with the same
key and the same cutoff, if any. -/
def findExisting (iss : InputIssue) (before : Int) (db : DB) : Option Dataset :=
  (db.datasets.filter (fun d =>
    dsKeyMatch iss.owner iss.name iss.number d && decide (d.before = before))).head?

/-- The composed snapshot record, one field per assignment of the
source builder, computed over the store as it stands after the stale
deletion. -/
def mkData (cb : Collab) (iss : InputIssue) (before : Int) (db : DB)
    (ri : RepoIssue) (repo : Repo) : Dataset :=
  let bg := _get_background_data db iss.owner iss.name before
  let prev := (db.resolved.filter (fun x =>
      decide (x.name = iss.name) && decide (x.owner = iss.owner) &&
      decide (x.resolved_at ≤ before))).map (fun x => x.resolver_commit_num)
  let dyn := _get_dynamics_data db iss.owner iss.name iss.events before
  let clean_body := _delete_urls (some (_delete_code_snippets ri.body))
  { owner := iss.owner
    name := iss.name
    number := iss.number
    created_at := ri.created_at
    closed_at := ri.closed_at
    before := before
    resolver_commit_num := iss.rcn
    title := ri.title
    body := clean_body
    len_title := _count_text_len (some ri.title)
    len_body := _count_text_len (some clean_body)
    n_code_snips := _count_code_snippets ri.body
    n_urls := _count_urls ri.body
    n_imgs := _count_imgs ri.body
    coleman_liau_index := cb.coleman_liau_index clean_body
    flesch_reading_ease := cb.flesch_reading_ease clean_body
    flesch_kincaid_grade := cb.flesch_kincaid_grade clean_body
    automated_readability_index := cb.automated_readability_index clean_body
    labels := dyn.labels
    label_category := _get_categorized_labels cb.lem dyn.labels
    reporter_feat := _get_user_data db iss.owner iss.name ri.user before
    owner_feat := _get_user_data db iss.owner iss.name iss.owner before
    prev_resolver_commits := prev
    n_stars := ((repo.monthly_stars.filter (fun x => decide (x.month ≤ before))).map
      (fun x => x.count)).sum
    n_pulls := ((repo.monthly_pulls.filter (fun x => decide (x.month ≤ before))).map
      (fun x => x.count)).sum
    n_commits := ((repo.monthly_commits.filter (fun x => decide (x.month ≤ before))).map
      (fun x => x.count)).sum
    n_contributors := bg.contributors.length
    n_closed_issues := bg.n_closed
    n_open_issues := bg.n_open
    r_open_issues :=
      if bg.n_open + bg.n_closed > 0 then
        (bg.n_open : ℚ) / ((bg.n_open : ℚ) + (bg.n_closed : ℚ))
      else 0
    issue_close_time :=
      if bg.close_times.length > 0 then medianQ bg.close_times else 0
    comments := dyn.comments
    events := (iss.events.filter (fun e => decide (e.time < before))).map (fun e => e.type)
    comment_users := dyn.comment_users
    event_users := dyn.event_users }

/-- Outcome of one builder call: a returned snapshot, a logged abort
returning nothing, or an escaping exception. -/
inductive BuildResult where
  | ok (d : Option Dataset)
  | crash
deriving DecidableEq

/-- Step 3 of the builder: the canonical issue record, the first match
for the key in the issues collection. -/
def fetchIssue (iss : InputIssue) (db : DB) : Option RepoIssue :=
  (db.issues.filter (fun i =>
    decide (i.owner = iss.owner) && decide (i.name = iss.name) &&
    decide (i.number = iss.number))).head?

/-- The repository record of the builder, the first match for the
repository key. -/
def fetchRepo (iss : InputIssue) (db : DB) : Option Repo :=
  (db.repos.filter (fun r =>
    decide (r.owner = iss.owner) && decide (r.name = iss.name))).head?

/-- The snapshot builder of the source: stale deletion, memoization
check, canonical-record fetch (a missing record or repository raises),
pull-request abort, then compose, persist and return. -/
def get_dataset (cb : Collab) (iss : InputIssue) (before : Int) (db : DB) :
    BuildResult × DB :=
  let db1 := staleDelete iss db
  match findExisting iss before db1 with
  | some d => (.ok (some d), db1)
  | none =>
    match fetchIssue iss db1 with
    | none => (.crash, db1)
    | some ri =>
      if ri.is_pull then (.ok none, db1)
      else
        match fetchRepo iss db1 with
        | none => (.crash, db1)
        | some repo =>
          let data := mkData cb iss before db1 ri repo
          (.ok (some data), { db1 with datasets := db1.datasets ++ [data] })

/-- State threaded through an orchestrator run: the store, the ghost
trace of builder invocations (key and cutoff), and whether an exception
has escaped (after which nothing further runs). -/
structure RunState where
  db : DB
  trace : List (String × String × Int × Int)
  crashed : Bool
deriving DecidableEq

/-- One builder invocation inside an orchestrator loop; a crash makes
every later step a no-op, modelling the escaping exception. -/
def callBuilder (cb : Collab) (iss : InputIssue) (t : Int) (st : RunState) :
    RunState :=
  if st.crashed then st
  else
    let r := get_dataset cb iss t st.db
    { db := r.2
      trace := st.trace ++ [(iss.owner, iss.name, iss.number, t)]
      crashed := decide (r.1 = .crash) }

/-- The resolved-issue loop of the orchestrator: two builder calls per
issue, at its creation time then at its resolution time. -/
def resolvedPhase (cb : Collab) (rs : List ResolvedIssue) (st : RunState) :
    RunState :=
  rs.foldl (fun st i =>
    callBuilder cb (.resolved i) i.resolved_at
      (callBuilder cb (.resolved i) i.created_at st)) st

/-- Most recent activity time of an open issue: the maximum event time,
or the creation time when there are no events. -/
def lastUpdated (i : OpenIssue) : Int :=
  match i.events.map (fun e => e.time) with
  | [] => i.created_at
  | t :: ts => ts.foldl max t

/-- The open-issue loop body of the orchestrator: skip when a snapshot
for the key already has a cutoff at or past the last activity,
otherwise build at the issue's updated_at time. -/
def openStep (cb : Collab) (st : RunState) (i : OpenIssue) : RunState :=
  if st.crashed then st
  else
    match (st.db.datasets.filter (dsKeyMatch i.owner i.name i.number)).head? with
    | some d =>
      if d.before ≥ lastUpdated i then st
      else callBuilder cb (.opened i) i.updated_at st
    | none => callBuilder cb (.opened i) i.updated_at st

/-- The issue-processing body shared by both orchestrator entry points. -/
def get_dataset_with_issues (cb : Collab) (rs : List ResolvedIssue)
    (os : List OpenIssue) (st : RunState) : RunState :=
  os.foldl (openStep cb) (resolvedPhase cb rs st)

/-- Modelled from the spec: log_exists is defined in gfibot.collections,
which is not among the provided sources; per the spec an active
BuildLog is one whose end time is unset, keyed by (owner, name). -/
def log_exists (owner name : String) (db : DB) : Bool :=
  db.buildLogs.any (fun l =>
    decide (l.owner = owner) && decide (l.name = name) &&
    decide (l.update_end = none))

/-- The resolved-issue selection of the per-repository entry point. -/
def repoResolvedSel (owner name : String) (since : Int) (db : DB) :
    List ResolvedIssue :=
  db.resolved.filter (fun i =>
    decide (i.owner = owner) && decide (i.name = name) &&
    decide (i.resolved_at ≥ since))

/-- The open-issue selection of the per-repository entry point. -/
def repoOpenSel (owner name : String) (since : Int) (db : DB) :
    List OpenIssue :=
  db.open_issues.filter (fun i =>
    decide (i.owner = owner) && decide (i.name = name) &&
    decide (i.updated_at ≥ since))

/-- The freshly opened BuildLog of the per-repository entry point. -/
def repoOpenLog (owner name : String) (login : Option String)
    (pid tBegin : Int) : DatasetBuildLog :=
  { owner := owner, name := name, pid := pid, github_user_login := login,
    update_begin := tBegin, update_end := none,
    updated_open_issues := none, updated_resolved_issues := none }

/-- The store with the open BuildLog of the per-repository entry point
saved into it. -/
def repoDb1 (owner name : String) (login : Option String)
    (pid tBegin : Int) (db : DB) : DB :=
  { db with buildLogs := db.buildLogs ++ [repoOpenLog owner name login pid tBegin] }

/-- The processing phase of the per-repository entry point: run the
issue loops over the store holding the open log. -/
def repoRun (cb : Collab) (owner name : String) (since : Int)
    (login : Option String) (pid tBegin : Int) (db : DB) : RunState :=
  let db1 := repoDb1 owner name login pid tBegin db
  get_dataset_with_issues cb (repoResolvedSel owner name since db1)
    (repoOpenSel owner name since db1) ⟨db1, [], false⟩

/-- The closed form of the per-repository BuildLog: end time set and
both counters filled. -/
def repoClosedLog (owner name : String) (login : Option String)
    (pid tBegin tEnd : Int) (nOpen nRes : Nat) : DatasetBuildLog :=
  { repoOpenLog owner name login pid tBegin with
      update_end := some tEnd
      updated_open_issues := some nOpen
      updated_resolved_issues := some nRes }

/-- The per-repository entry point: refuse on an active lock, otherwise
open a BuildLog, process the selected issues, and close the same log
record in place (the second save updates the document inserted by the
first); a crash leaves the log open. -/
def get_dataset_for_repo (cb : Collab) (owner name : String) (since : Int)
    (login : Option String) (pid tBegin tEnd : Int) (db : DB) : DB :=
  if log_exists owner name db then db
  else
    let db1 := repoDb1 owner name login pid tBegin db
    let st := repoRun cb owner name since login pid tBegin db
    let closedLog := repoClosedLog owner name login pid tBegin tEnd
      (repoOpenSel owner name since db1).length
      (repoResolvedSel owner name since db1).length
    if st.crashed then st.db
    else { st.db with buildLogs := db.buildLogs ++ [closedLog] }

/-- The resolved-issue selection of the global entry point: everything,
or a resolution-time lower bound when a watermark is given. -/
def allResolvedSel (since : Option Int) (db : DB) : List ResolvedIssue :=
  match since with
  | none => db.resolved
  | some s => db.resolved.filter (fun i => decide (i.resolved_at ≥ s))

/-- The open-issue selection of the global entry point. -/
def allOpenSel (since : Option Int) (db : DB) : List OpenIssue :=
  match since with
  | none => db.open_issues
  | some s => db.open_issues.filter (fun i => decide (i.updated_at ≥ s))

/-- The freshly opened BuildLog of the global entry point, keyed by the
empty pair. -/
def allOpenLog (pid tBegin : Int) : DatasetBuildLog :=
  { owner := "", name := "", pid := pid, github_user_login := none,
    update_begin := tBegin, update_end := none,
    updated_open_issues := none, updated_resolved_issues := none }

/-- The store with the open global BuildLog saved into it. -/
def allDb1 (pid tBegin : Int) (db : DB) : DB :=
  { db with buildLogs := db.buildLogs ++ [allOpenLog pid tBegin] }

/-- The processing phase of the global entry point. -/
def allRun (cb : Collab) (since : Option Int) (pid tBegin : Int)
    (db : DB) : RunState :=
  let db1 := allDb1 pid tBegin db
  get_dataset_with_issues cb (allResolvedSel since db1) (allOpenSel since db1)
    ⟨db1, [], false⟩

/-- The closed form of the global BuildLog. -/
def allClosedLog (pid tBegin tEnd : Int) (nOpen nRes : Nat) : DatasetBuildLog :=
  { allOpenLog pid tBegin with
      update_end := some tEnd
      updated_open_issues := some nOpen
      updated_resolved_issues := some nRes }

/-- The global entry point, locked under the empty key pair. -/
def get_dataset_all (cb : Collab) (since : Option Int)
    (pid tBegin tEnd : Int) (db : DB) : DB :=
  if log_exists "" "" db then db
  else
    let db1 := allDb1 pid tBegin db
    let st := allRun cb since pid tBegin db
    let closedLog := allClosedLog pid tBegin tEnd (allOpenSel since db1).length
      (allResolvedSel since db1).length
    if st.crashed then st.db
    else { st.db with buildLogs := db.buildLogs ++ [closedLog] }

/-- A concrete collaborator instance for concrete runs: identity
lemmatizer and zero readability scores. -/
def cb0 : Collab :=
  { lem := id
    coleman_liau_index := fun _ => 0
    flesch_reading_ease := fun _ => 0
    flesch_kincaid_grade := fun _ => 0
    automated_readability_index := fun _ => 0 }

/-- The empty store. -/
def dbEmpty : DB := ⟨[], [], [], [], [], [], []⟩

/-- A commit authored by alice but committed by bob. -/
def cexCommit : RepoCommit :=
  { owner := "o", name := "n", author := "alice", committer := "bob",
    authored_at := 0, committed_at := 0 }

def dbC1 : DB := { dbEmpty with commits := [cexCommit] }

def dynLabX : IssueEvent :=
  { type := "labeled", actor := none, label := "x", comment := "", time := 0 }

def dynUnlabX : IssueEvent :=
  { type := "unlabeled", actor := none, label := "x", comment := "", time := 0 }

/-- The canonical issue record used by concrete builder runs. -/
def riW : RepoIssue :=
  { owner := "o", name := "n", number := 1, user := "u", state := "open",
    title := "T", body := none, is_pull := false, created_at := 0,
    closed_at := none }

def repoW : Repo :=
  { owner := "o", name := "n", monthly_stars := [], monthly_pulls := [],
    monthly_commits := [] }

/-- A resolved issue for the same key, resolved at time 5 by 2 commits. -/
def rW : ResolvedIssue :=
  { owner := "o", name := "n", number := 1, created_at := 0, resolved_at := 5,
    resolver_commit_num := 2, events := [] }

/-- An open issue for the same key. -/
def oW : OpenIssue :=
  { owner := "o", name := "n", number := 1, created_at := 0, updated_at := 3,
    events := [] }

/-- A stale snapshot for the key of rW at cutoff 5, computed while the
issue was still open (sentinel resolver commit number -1). -/
def staleSnap : Dataset :=
  { owner := "o", name := "n", number := 1, created_at := 0, closed_at := none,
    before := 5, resolver_commit_num := -1, title := "T", body := "ZZZ",
    len_title := 1, len_body := 1, n_code_snips := 0, n_urls := 0, n_imgs := 0,
    coleman_liau_index := 0, flesch_reading_ease := 0,
    flesch_kincaid_grade := 0, automated_readability_index := 0, labels := [],
    label_category := {}, reporter_feat := ⟨"u", 0, 0, 0, []⟩,
    owner_feat := ⟨"o", 0, 0, 0, []⟩, prev_resolver_commits := [],
    n_stars := 0, n_pulls := 0, n_commits := 0, n_contributors := 0,
    n_closed_issues := 0, n_open_issues := 0, r_open_issues := 0,
    issue_close_time := 0, comments := [], events := [], comment_users := [],
    event_users := [] }

/-- A non-stale persisted snapshot for the same key and cutoff. -/
def priorSnap : Dataset := { staleSnap with resolver_commit_num := 2 }

/-- Store with a stale snapshot at the cutoff the builder is called at. -/
def dbC2 : DB := { dbEmpty with issues := [riW], repos := [repoW], datasets := [staleSnap] }

/-- Store with a non-stale snapshot at that cutoff. -/
def dbPrior : DB := { dbEmpty with issues := [riW], repos := [repoW], datasets := [priorSnap] }

/-- Store with the raw records needed for a successful build and no
snapshot yet. -/
def dbBuild : DB := { dbEmpty with issues := [riW], repos := [repoW] }

/-- A canonical record that is actually a pull request. -/
def riP : RepoIssue := { riW with number := 2, is_pull := true }

def o2 : OpenIssue := { oW with number := 2 }

def dbC9 : DB := { dbEmpty with issues := [riP] }

/-- Store holding an active (end time unset) BuildLog for key (o, n). -/
def dbLock : DB :=
  { dbEmpty with buildLogs :=
      [{ owner := "o", name := "n", pid := 1, github_user_login := none,
         update_begin := 0, update_end := none, updated_open_issues := none,
         updated_resolved_issues := none }] }

/-- Store holding an active global BuildLog (empty key pair). -/
def dbLockAll : DB :=
  { dbEmpty with buildLogs :=
      [{ owner := "", name := "", pid := 1, github_user_login := none,
         update_begin := 0, update_end := none, updated_open_issues := none,
         updated_resolved_issues := none }] }

theorem addLabel_get (lem : String → String) (acc : LabelCategory)
    (label : String) (c : Cat) :
    (addLabel lem acc label).get c = acc.get c + catIncrement lem label c := by
  cases c <;> rfl

theorem catIncrement_le_one (lem : String → String) (label : String) (c : Cat) :
    catIncrement lem label c ≤ 1 := by
  unfold catIncrement
  split <;> simp

theorem foldl_addLabel_get (lem : String → String) (labels : List String)
    (acc : LabelCategory) (c : Cat) :
    (labels.foldl (addLabel lem) acc).get c =
      acc.get c + (labels.map (fun l => catIncrement lem l c)).sum := by
  induction labels generalizing acc with
  | nil => simp
  | cons l ls ih =>
    simp only [List.foldl_cons, List.map_cons, List.sum_cons, ih, addLabel_get]
    omega

/-- C7: in the label categorizer, each label increments each category
count by at most one (the per-label increment is 0 or 1 even when
several rules of the category match), one label may increment several
categories simultaneously, and the final output is the per-category sum
over all labels; concretely the single label bug yields bug = 1, and
the label bug-in-test increments both bug and test. -/
theorem label_categorizer_multiplicity :
    (∀ (lem : String → String) (labels : List String) (l : String) (c : Cat),
      (_get_categorized_labels lem (labels ++ [l])).get c =
        (_get_categorized_labels lem labels).get c + catIncrement lem l c ∧
      catIncrement lem l c ≤ 1) ∧
    (∀ (lem : String → String) (labels : List String) (c : Cat),
      (_get_categorized_labels lem labels).get c =
        (labels.map (fun l => catIncrement lem l c)).sum) ∧
    (_get_categorized_labels id ["bug"]).bug = 1 ∧
    ((_get_categorized_labels id ["bug-in-test"]).bug = 1 ∧
      (_get_categorized_labels id ["bug-in-test"]).test = 1) := by
  refine ⟨?_, ?_, ?_, ?_, ?_⟩
  · intro lem labels l c
    constructor
    · simp only [_get_categorized_labels, List.foldl_append, List.foldl_cons,
        List.foldl_nil, addLabel_get]
    · exact catIncrement_le_one lem l c
  · intro lem labels c
    have h0 : (({} : LabelCategory)).get c = 0 := by cases c <;> rfl
    show (labels.foldl (addLabel lem) {}).get c = _
    rw [foldl_addLabel_get, h0, Nat.zero_add]
  · decide
  · decide
  · decide

theorem length_filter_not_add {α : Type} (p : α → Bool) (l : List α) :
    (l.filter (fun a => !(p a))).length + (l.filter p).length = l.length := by
  induction l with
  | nil => rfl
  | cons a l ih => cases h : p a <;> simp [List.filter_cons, h] <;> omega

/-- The image test as the claim words it: the token must end in .jpg,
.jpeg or .png, dot included. -/
def isImgTokenSpec (s2 : List Char) : Bool :=
  ".jpg".data.isSuffixOf s2 || ".jpeg".data.isSuffixOf s2 ||
  ".png".data.isSuffixOf s2

/-- The URL count as the claim words it: URL-like tokens not ending in
a dotted image extension. -/
def claimUrlCount (s : String) : Nat :=
  ((urlScan s.data).1.filter (fun s2 => !(isImgTokenSpec s2))).length

/-- The image count as the claim words it: URL-like tokens ending in a
dotted image extension. -/
def claimImgCount (s : String) : Nat :=
  ((urlScan s.data).1.filter isImgTokenSpec).length

/-- C8 counterexample: on the body http://a/bjpg the code counts the
token as an image (suffix test without the dot) while the claim's
dotted-extension reading counts it as a URL. -/
theorem url_image_partition_cex :
    _count_urls (some "http://a/bjpg") = 0 ∧
    claimUrlCount "http://a/bjpg" = 1 ∧
    _count_imgs (some "http://a/bjpg") = 1 ∧
    claimImgCount "http://a/bjpg" = 0 := by
  refine ⟨?_, ?_, ?_, ?_⟩ <;> decide

/-- C8 (amended): URL-like tokens are partitioned between the URL count
and the image count by the suffix test jpg or jpeg or png with no dot
required; on the example body the counts are 1 and 1. -/
theorem url_image_partition :
    (∀ s : String,
      _count_urls (some s) + _count_imgs (some s) = (urlScan s.data).1.length) ∧
    (∀ s : String,
      _count_urls (some s) =
        ((urlScan s.data).1.filter (fun s2 => !(isImgToken s2))).length) ∧
    (∀ s : String,
      _count_imgs (some s) = ((urlScan s.data).1.filter isImgToken).length) ∧
    _count_urls (some "see http://x.com/a and http://x.com/b.png") = 1 ∧
    _count_imgs (some "see http://x.com/a and http://x.com/b.png") = 1 := by
  refine ⟨?_, ?_, ?_, ?_, ?_⟩
  · intro s
    exact length_filter_not_add isImgToken (urlScan s.data).1
  · intro s; rfl
  · intro s; rfl
  · decide
  · decide

theorem addEventActor_labels (acc : DynAcc) (a : Option String) :
    (addEventActor acc a).labels = acc.labels := by
  cases a with
  | none => rfl
  | some x =>
    show (if x ≠ "ghost" then
      { acc with event_users := insertNew acc.event_users x } else acc).labels =
        acc.labels
    split <;> rfl

theorem erase_of_contains_false (l : List String) (a : String)
    (h : l.contains a = false) : l.erase a = l := by
  apply List.erase_of_not_mem
  intro hmem
  have h2 : l.contains a = true := List.elem_eq_true_of_mem hmem
  rw [h2] at h
  cases h

/-- C5 counterexample: the replayed label collection is a list, not a
set: two labeled(x) events produce a duplicate entry, and the replay of
labeled(x), labeled(x), unlabeled(x) leaves one occurrence rather than
none. -/
theorem dynamics_label_set_cex :
    (_get_dynamics_data dbEmpty "o" "n" [dynLabX, dynLabX] 0).labels = ["x", "x"] ∧
    (_get_dynamics_data dbEmpty "o" "n" [dynLabX, dynLabX, dynUnlabX] 0).labels = ["x"] := by
  constructor <;> decide

/-- C5 (amended): the replayer maintains the labels as a list: a
labeled event at or before the cutoff appends its label (an
already-present label is appended again, so duplicates can occur), an
unlabeled event removes the first occurrence of its label when present;
replaying labeled(x), labeled(x), unlabeled(x) therefore yields the
one-element list x, not the empty collection. -/
theorem dynamics_label_list :
    (∀ (t : Int) (acc : DynAcc) (e : IssueEvent),
      e.time ≤ t → e.type = "labeled" →
        (dynStep t acc e).labels = acc.labels ++ [e.label]) ∧
    (∀ (t : Int) (acc : DynAcc) (e : IssueEvent),
      e.time ≤ t → e.type = "unlabeled" →
        (dynStep t acc e).labels = acc.labels.erase e.label) ∧
    (_get_dynamics_data dbEmpty "o" "n" [dynLabX, dynLabX, dynUnlabX] 0).labels = ["x"] := by
  refine ⟨?_, ?_, by decide⟩
  · intro t acc e ht hty
    unfold dynStep
    rw [if_pos ht, hty]
    simp [addEventActor_labels]
  · intro t acc e ht hty
    unfold dynStep
    rw [if_pos ht, hty]
    rw [if_neg (by decide : ¬("unlabeled" = "labeled"))]
    rw [if_pos rfl]
    by_cases hc : (addEventActor acc e.actor).labels.contains e.label = true
    · rw [if_pos hc]
      show (addEventActor acc e.actor).labels.erase e.label = _
      rw [addEventActor_labels]
    · rw [if_neg hc]
      simp only [Bool.not_eq_true, addEventActor_labels] at hc
      rw [addEventActor_labels, erase_of_contains_false _ _ hc]

/-- C5 witness: the append clause of the amended claim, applied at a
concrete accumulator already containing another label. -/
theorem dynamics_label_list_witness :
    (dynStep 0 (DynAcc.mk ["y"] [] [] []) dynLabX).labels = ["y", "x"] := by
  have h := dynamics_label_list.1 0 (DynAcc.mk ["y"] [] [] []) dynLabX
    (by decide) rfl
  simpa using h

/-- C6: an unlabeled event whose label is not in the replayed list is
ignored: the replay (a total function, so nothing is raised) leaves the
label list unchanged, and replaying the single event unlabeled(x) with
no prior labeled(x) leaves the label list empty. -/
theorem unlabel_without_label_tolerance :
    (∀ (t : Int) (acc : DynAcc) (e : IssueEvent),
      e.type = "unlabeled" → acc.labels.contains e.label = false →
        (dynStep t acc e).labels = acc.labels) ∧
    (_get_dynamics_data dbEmpty "o" "n" [dynUnlabX] 0).labels = [] := by
  refine ⟨?_, by decide⟩
  intro t acc e hty hc
  unfold dynStep
  by_cases ht : e.time ≤ t
  · rw [if_pos ht, hty]
    rw [if_neg (by decide : ¬("unlabeled" = "labeled"))]
    rw [if_pos rfl]
    have hns : ¬((addEventActor acc e.actor).labels.contains e.label = true) := by
      rw [addEventActor_labels, hc]
      exact Bool.false_ne_true
    rw [if_neg hns]
    exact addEventActor_labels acc e.actor
  · rw [if_neg ht]

/-- C6 witness: the tolerance clause applied at a concrete accumulator
and the concrete unlabeled(x) event. -/
theorem unlabel_without_label_tolerance_witness :
    (dynStep 0 (DynAcc.mk ["y"] [] [] []) dynUnlabX).labels = ["y"] :=
  unlabel_without_label_tolerance.1 0 (DynAcc.mk ["y"] [] [] []) dynUnlabX
    rfl (by decide)

/-- The commit-count predicate exactly as the claim words it: author is
the user, or author is the user and the committer is web-flow. -/
def claimCommitQ (owner name user : String) (t : Int) (c : RepoCommit) : Bool :=
  decide (c.owner = owner) && decide (c.name = name) &&
  decide (c.authored_at ≤ t) && decide (c.committed_at ≤ t) &&
  (decide (c.author = user) ||
    (decide (c.author = user) && decide (c.committer = "web-flow")))

/-- C1 counterexample: a commit authored by alice but committed by bob
(not web-flow) is counted under the claim's reading, yet the code, whose
first disjunct filters on the committer, does not count it. -/
theorem user_commit_count_cex :
    ("alice" : String) ≠ "ghost" ∧
    (_get_user_data dbC1 "o" "n" "alice" 0).n_commits = 0 ∧
    (dbC1.commits.filter (claimCommitQ "o" "n" "alice" 0)).length = 1 := by
  refine ⟨by decide, by decide, by decide⟩

/-- C1 (amended): for a user other than the deleted-account sentinel,
the aggregator's commit count equals the number of repository commits
with both timestamps at or before the cutoff whose committer is the
user, or whose author is the user and whose committer is the web-flow
identity. -/
theorem user_commit_count (db : DB) (owner name user : String) (t : Int)
    (h : user ≠ "ghost") :
    (_get_user_data db owner name user t).n_commits =
      (db.commits.filter (fun c =>
        decide (c.owner = owner ∧ c.name = name ∧ c.authored_at ≤ t ∧
          c.committed_at ≤ t ∧
          (c.committer = user ∨
            (c.author = user ∧ c.committer = "web-flow"))))).length := by
  unfold _get_user_data
  rw [if_neg h]
  have hpt : db.commits.filter (commitQ owner name user t) =
      db.commits.filter (fun c =>
        decide (c.owner = owner ∧ c.name = name ∧ c.authored_at ≤ t ∧
          c.committed_at ≤ t ∧
          (c.committer = user ∨
            (c.author = user ∧ c.committer = "web-flow")))) := by
    apply List.filter_congr
    intro c _
    unfold commitQ
    simp only [Bool.decide_and, Bool.decide_or, Bool.and_assoc]
  rw [hpt]

/-- C1 witness: the amended count evaluated on the one-commit store. -/
theorem user_commit_count_witness :
    (_get_user_data dbC1 "o" "n" "alice" 0).n_commits =
      (dbC1.commits.filter (fun c =>
        decide (c.owner = "o" ∧ c.name = "n" ∧ c.authored_at ≤ 0 ∧
          c.committed_at ≤ 0 ∧
          (c.committer = "alice" ∨
            (c.author = "alice" ∧ c.committer = "web-flow"))))).length :=
  user_commit_count dbC1 "o" "n" "alice" 0 (by decide)

theorem staleDelete_issues (iss : InputIssue) (db : DB) :
    (staleDelete iss db).issues = db.issues := by
  cases iss <;> rfl

theorem staleDelete_repos (iss : InputIssue) (db : DB) :
    (staleDelete iss db).repos = db.repos := by
  cases iss <;> rfl

theorem fetchIssue_staleDelete (iss : InputIssue) (db : DB) :
    fetchIssue iss (staleDelete iss db) = fetchIssue iss db := by
  unfold fetchIssue
  rw [staleDelete_issues]

theorem fetchRepo_staleDelete (iss : InputIssue) (db : DB) :
    fetchRepo iss (staleDelete iss db) = fetchRepo iss db := by
  unfold fetchRepo
  rw [staleDelete_repos]

theorem filter_idem {α : Type} (p : α → Bool) (l : List α) :
    (l.filter p).filter p = l.filter p := by
  induction l with
  | nil => rfl
  | cons a l ih => cases h : p a <;> simp [List.filter_cons, h, ih]

theorem staleDelete_opened (o : OpenIssue) (db : DB) :
    staleDelete (.opened o) db = db := rfl

theorem staleDelete_resolved_datasets (r : ResolvedIssue) (db : DB) :
    (staleDelete (.resolved r) db).datasets =
      db.datasets.filter (fun d =>
        !(dsKeyMatch r.owner r.name r.number d &&
          decide (d.resolver_commit_num = -1))) := rfl

theorem staleDelete_idem (iss : InputIssue) (db : DB) :
    staleDelete iss (staleDelete iss db) = staleDelete iss db := by
  cases iss with
  | opened o => rfl
  | resolved r =>
    have h : (staleDelete (.resolved r) db).datasets.filter (fun d =>
        !(dsKeyMatch r.owner r.name r.number d &&
          decide (d.resolver_commit_num = -1))) =
        (staleDelete (.resolved r) db).datasets := by
      rw [staleDelete_resolved_datasets]
      exact filter_idem _ _
    show { staleDelete (.resolved r) db with datasets :=
      (staleDelete (.resolved r) db).datasets.filter (fun d =>
        !(dsKeyMatch r.owner r.name r.number d &&
          decide (d.resolver_commit_num = -1))) } = staleDelete (.resolved r) db
    rw [h]

theorem mkData_owner (cb : Collab) (iss : InputIssue) (before : Int)
    (db : DB) (ri : RepoIssue) (repo : Repo) :
    (mkData cb iss before db ri repo).owner = iss.owner := rfl

theorem mkData_before (cb : Collab) (iss : InputIssue) (before : Int)
    (db : DB) (ri : RepoIssue) (repo : Repo) :
    (mkData cb iss before db ri repo).before = before := rfl

theorem mkData_rcn (cb : Collab) (iss : InputIssue) (before : Int)
    (db : DB) (ri : RepoIssue) (repo : Repo) :
    (mkData cb iss before db ri repo).resolver_commit_num = iss.rcn := rfl

theorem dsKeyMatch_mkData (cb : Collab) (iss : InputIssue) (before : Int)
    (db : DB) (ri : RepoIssue) (repo : Repo) :
    dsKeyMatch iss.owner iss.name iss.number (mkData cb iss before db ri repo) = true := by
  unfold dsKeyMatch
  show (decide (iss.owner = iss.owner) && decide (iss.name = iss.name) &&
    decide (iss.number = iss.number)) = true
  simp

theorem get_dataset_memo (cb : Collab) (iss : InputIssue) (before : Int)
    (db : DB) (d : Dataset)
    (hfe : findExisting iss before (staleDelete iss db) = some d) :
    get_dataset cb iss before db = (.ok (some d), staleDelete iss db) := by
  simp only [get_dataset]
  rw [hfe]

theorem get_dataset_noissue (cb : Collab) (iss : InputIssue) (before : Int)
    (db : DB)
    (hfe : findExisting iss before (staleDelete iss db) = none)
    (hri : fetchIssue iss (staleDelete iss db) = none) :
    get_dataset cb iss before db = (.crash, staleDelete iss db) := by
  simp only [get_dataset]
  rw [hfe, hri]

theorem get_dataset_pull (cb : Collab) (iss : InputIssue) (before : Int)
    (db : DB) (ri : RepoIssue)
    (hfe : findExisting iss before (staleDelete iss db) = none)
    (hri : fetchIssue iss (staleDelete iss db) = some ri)
    (hp : ri.is_pull = true) :
    get_dataset cb iss before db = (.ok none, staleDelete iss db) := by
  simp only [get_dataset]
  rw [hfe, hri]
  simp [hp]

theorem get_dataset_norepo (cb : Collab) (iss : InputIssue) (before : Int)
    (db : DB) (ri : RepoIssue)
    (hfe : findExisting iss before (staleDelete iss db) = none)
    (hri : fetchIssue iss (staleDelete iss db) = some ri)
    (hp : ri.is_pull = false)
    (hrp : fetchRepo iss (staleDelete iss db) = none) :
    get_dataset cb iss before db = (.crash, staleDelete iss db) := by
  simp only [get_dataset]
  rw [hfe, hri]
  simp [hp, hrp]

theorem get_dataset_build (cb : Collab) (iss : InputIssue) (before : Int)
    (db : DB) (ri : RepoIssue) (repo : Repo)
    (hfe : findExisting iss before (staleDelete iss db) = none)
    (hri : fetchIssue iss (staleDelete iss db) = some ri)
    (hp : ri.is_pull = false)
    (hrp : fetchRepo iss (staleDelete iss db) = some repo) :
    get_dataset cb iss before db =
      (.ok (some (mkData cb iss before (staleDelete iss db) ri repo)),
        { staleDelete iss db with datasets :=
            (staleDelete iss db).datasets ++
              [mkData cb iss before (staleDelete iss db) ri repo] }) := by
  simp only [get_dataset]
  rw [hfe, hri]
  simp [hp, hrp]

theorem staleDelete_of_filter_eq (iss : InputIssue) (db : DB)
    (h : ∀ r, iss = .resolved r →
      db.datasets.filter (fun d =>
        !(dsKeyMatch r.owner r.name r.number d &&
          decide (d.resolver_commit_num = -1))) = db.datasets) :
    staleDelete iss db = db := by
  cases iss with
  | opened o => rfl
  | resolved r =>
    show { db with datasets := db.datasets.filter (fun d =>
      !(dsKeyMatch r.owner r.name r.number d &&
        decide (d.resolver_commit_num = -1))) } = db
    rw [h r rfl]

/-- C2 (amended): if a Snapshot already exists for the key and cutoff
and survives the stale deletion (for a resolved input the records with
sentinel resolver commit number -1 are deleted first; for an open input
everything survives), the builder returns the first surviving record
and performs no write beyond that forced deletion; and calling the
builder twice with the same issue and cutoff, when the first call does
not raise and a resolved input does not itself carry the sentinel -1,
returns the identical result both times while the second call changes
nothing in the store. -/
theorem snapshot_builder_idempotent :
    (∀ (cb : Collab) (iss : InputIssue) (before : Int) (db : DB) (d : Dataset),
      findExisting iss before (staleDelete iss db) = some d →
      get_dataset cb iss before db = (.ok (some d), staleDelete iss db)) ∧
    (∀ (cb : Collab) (iss : InputIssue) (before : Int) (db : DB),
      (∀ r, iss = .resolved r → r.resolver_commit_num ≠ -1) →
      (get_dataset cb iss before db).1 ≠ .crash →
      get_dataset cb iss before (get_dataset cb iss before db).2 =
        get_dataset cb iss before db) := by
  constructor
  · intro cb iss before db d hfe
    exact get_dataset_memo cb iss before db d hfe
  · intro cb iss before db hrcn hnc
    cases hfe : findExisting iss before (staleDelete iss db) with
    | some d =>
      have h1 := get_dataset_memo cb iss before db d hfe
      have hfe2 : findExisting iss before (staleDelete iss (staleDelete iss db)) = some d := by
        rw [staleDelete_idem]
        exact hfe
      have h2 := get_dataset_memo cb iss before (staleDelete iss db) d hfe2
      rw [staleDelete_idem] at h2
      rw [h1]
      exact h2
    | none =>
      cases hri : fetchIssue iss (staleDelete iss db) with
      | none =>
        rw [get_dataset_noissue cb iss before db hfe hri] at hnc
        exact absurd rfl hnc
      | some ri =>
        cases hp : ri.is_pull with
        | true =>
          have h1 := get_dataset_pull cb iss before db ri hfe hri hp
          have hfe2 : findExisting iss before (staleDelete iss (staleDelete iss db)) = none := by
            rw [staleDelete_idem]
            exact hfe
          have hri2 : fetchIssue iss (staleDelete iss (staleDelete iss db)) = some ri := by
            rw [staleDelete_idem]
            exact hri
          have h2 := get_dataset_pull cb iss before (staleDelete iss db) ri hfe2 hri2 hp
          rw [staleDelete_idem] at h2
          rw [h1]
          exact h2
        | false =>
          cases hrp : fetchRepo iss (staleDelete iss db) with
          | none =>
            rw [get_dataset_norepo cb iss before db ri hfe hri hp hrp] at hnc
            exact absurd rfl hnc
          | some repo =>
            have h1 := get_dataset_build cb iss before db ri repo hfe hri hp hrp
            set db1 := staleDelete iss db with hdb1
            set data := mkData cb iss before db1 ri repo with hdata
            set db2 : DB := { db1 with datasets := db1.datasets ++ [data] } with hdb2
            have hsd2 : staleDelete iss db2 = db2 := by
              apply staleDelete_of_filter_eq
              intro r hr
              have hd2 : db2.datasets = db1.datasets ++ [data] := by rw [hdb2]
              rw [hd2, List.filter_append]
              have hfd1 : db1.datasets.filter (fun d =>
                  !(dsKeyMatch r.owner r.name r.number d &&
                    decide (d.resolver_commit_num = -1))) = db1.datasets := by
                rw [hdb1, hr, staleDelete_resolved_datasets]
                exact filter_idem _ _
              have hfd2 : [data].filter (fun d =>
                  !(dsKeyMatch r.owner r.name r.number d &&
                    decide (d.resolver_commit_num = -1))) = [data] := by
                have hdrcn : data.resolver_commit_num = r.resolver_commit_num := by
                  rw [hdata, mkData_rcn, hr]
                  rfl
                simp [List.filter_cons, hdrcn, hrcn r hr]
              rw [hfd1, hfd2]
            have hq0 : db1.datasets.filter (fun d =>
                dsKeyMatch iss.owner iss.name iss.number d &&
                  decide (d.before = before)) = [] := by
              have h := hfe
              unfold findExisting at h
              exact List.head?_eq_none_iff.mp h
            have hfe2 : findExisting iss before db2 = some data := by
              unfold findExisting
              have hd2 : db2.datasets = db1.datasets ++ [data] := by rw [hdb2]
              rw [hd2, List.filter_append, hq0]
              have hqd : (dsKeyMatch iss.owner iss.name iss.number data &&
                  decide (data.before = before)) = true := by
                rw [hdata]
                simp [dsKeyMatch_mkData, mkData_before]
              simp [List.filter_cons, hqd]
            have h2 := get_dataset_memo cb iss before db2 data (by rw [hsd2]; exact hfe2)
            rw [hsd2] at h2
            rw [h1]
            exact h2

/-- C2 witness: the memo clause at the store holding a non-stale prior
snapshot, and the two-call clause at a successful concrete build of an
open issue. -/
theorem snapshot_builder_idempotent_witness :
    get_dataset cb0 (.resolved rW) 5 dbPrior =
      (.ok (some priorSnap), staleDelete (.resolved rW) dbPrior) ∧
    get_dataset cb0 (.opened oW) 3 (get_dataset cb0 (.opened oW) 3 dbBuild).2 =
      get_dataset cb0 (.opened oW) 3 dbBuild := by
  constructor
  · exact snapshot_builder_idempotent.1 cb0 (.resolved rW) 5 dbPrior priorSnap
      (by decide)
  · exact snapshot_builder_idempotent.2 cb0 (.opened oW) 3 dbBuild
      (fun r hr => by cases hr) (by decide)

/-- C2 counterexample: a stale snapshot (sentinel -1) exists for the
exact key and cutoff, yet a call with the now-resolved issue does not
return it unchanged: it deletes it, rebuilds, and writes a new record,
so the store changes. -/
theorem snapshot_builder_idempotent_cex :
    (dbC2.datasets.filter (fun d => dsKeyMatch "o" "n" 1 d &&
      decide (d.before = (5 : Int)))).length = 1 ∧
    (get_dataset cb0 (.resolved rW) 5 dbC2).2.datasets ≠ dbC2.datasets ∧
    (get_dataset cb0 (.resolved rW) 5 dbC2).1 ≠ .ok (some staleSnap) := by
  refine ⟨by decide, by decide, by decide⟩

theorem mem_of_head?_eq_some {α : Type} (l : List α) (a : α)
    (h : l.head? = some a) : a ∈ l := by
  cases l with
  | nil => cases h
  | cons x xs =>
    simp only [List.head?_cons, Option.some.injEq] at h
    subst h
    exact List.mem_cons_self _ _

theorem get_dataset_db_cases (cb : Collab) (iss : InputIssue) (before : Int)
    (db : DB) :
    (get_dataset cb iss before db).2 = staleDelete iss db ∨
    ∃ ri repo,
      (get_dataset cb iss before db).2 =
        { staleDelete iss db with datasets :=
            (staleDelete iss db).datasets ++
              [mkData cb iss before (staleDelete iss db) ri repo] } := by
  cases hfe : findExisting iss before (staleDelete iss db) with
  | some d => rw [get_dataset_memo cb iss before db d hfe]; left; rfl
  | none =>
    cases hri : fetchIssue iss (staleDelete iss db) with
    | none => rw [get_dataset_noissue cb iss before db hfe hri]; left; rfl
    | some ri =>
      cases hp : ri.is_pull with
      | true => rw [get_dataset_pull cb iss before db ri hfe hri hp]; left; rfl
      | false =>
        cases hrp : fetchRepo iss (staleDelete iss db) with
        | none => rw [get_dataset_norepo cb iss before db ri hfe hri hp hrp]; left; rfl
        | some repo =>
          rw [get_dataset_build cb iss before db ri repo hfe hri hp hrp]
          right
          exact ⟨ri, repo, rfl⟩

/-- C3: a resolved input first deletes every snapshot for its key
carrying the stale sentinel resolver commit number -1 — the resulting
store is the filtered list plus at most one newly built record, and the
deletion happens before the existence check and before any build, so a
resolved call never returns a snapshot with the sentinel (when the
issue's own number is not -1); for an open input nothing is deleted. -/
theorem stale_supersession :
    (∀ (cb : Collab) (r : ResolvedIssue) (before : Int) (db : DB),
      ∃ tail, tail.length ≤ 1 ∧
        (get_dataset cb (.resolved r) before db).2.datasets =
          db.datasets.filter (fun d =>
            !(dsKeyMatch r.owner r.name r.number d &&
              decide (d.resolver_commit_num = -1))) ++ tail) ∧
    (∀ (cb : Collab) (o : OpenIssue) (before : Int) (db : DB),
      ∃ tail, tail.length ≤ 1 ∧
        (get_dataset cb (.opened o) before db).2.datasets = db.datasets ++ tail) ∧
    (∀ (cb : Collab) (r : ResolvedIssue) (before : Int) (db : DB) (d : Dataset),
      r.resolver_commit_num ≠ -1 →
      (get_dataset cb (.resolved r) before db).1 = .ok (some d) →
      d.resolver_commit_num ≠ -1) := by
  refine ⟨?_, ?_, ?_⟩
  · intro cb r before db
    cases get_dataset_db_cases cb (.resolved r) before db with
    | inl h =>
      refine ⟨[], by simp, ?_⟩
      rw [h, staleDelete_resolved_datasets, List.append_nil]
    | inr h =>
      obtain ⟨ri, repo, h⟩ := h
      refine ⟨[mkData cb (.resolved r) before (staleDelete (.resolved r) db) ri repo],
        by simp, ?_⟩
      rw [h]
      show (staleDelete (.resolved r) db).datasets ++ _ = _
      rw [staleDelete_resolved_datasets]
  · intro cb o before db
    cases get_dataset_db_cases cb (.opened o) before db with
    | inl h =>
      refine ⟨[], by simp, ?_⟩
      rw [h, staleDelete_opened, List.append_nil]
    | inr h =>
      obtain ⟨ri, repo, h⟩ := h
      refine ⟨[mkData cb (.opened o) before (staleDelete (.opened o) db) ri repo],
        by simp, ?_⟩
      rw [h]
      show (staleDelete (.opened o) db).datasets ++ _ = _
      rw [staleDelete_opened]
  · intro cb r before db d hrcn hok
    cases hfe : findExisting (.resolved r) before (staleDelete (.resolved r) db) with
    | some d2 =>
      rw [get_dataset_memo cb (.resolved r) before db d2 hfe] at hok
      simp only [BuildResult.ok.injEq, Option.some.injEq] at hok
      rw [← hok]
      have hmem : d2 ∈ (staleDelete (.resolved r) db).datasets.filter (fun x =>
          dsKeyMatch r.owner r.name r.number x && decide (x.before = before)) :=
        mem_of_head?_eq_some _ _ hfe
      rw [List.mem_filter] at hmem
      obtain ⟨hmem1, hq⟩ := hmem
      rw [staleDelete_resolved_datasets, List.mem_filter] at hmem1
      obtain ⟨_, hps⟩ := hmem1
      intro hd
      rw [Bool.and_eq_true] at hq
      rw [hq.1, decide_eq_true hd] at hps
      cases hps
    | none =>
      cases hri : fetchIssue (.resolved r) (staleDelete (.resolved r) db) with
      | none =>
        rw [get_dataset_noissue cb (.resolved r) before db hfe hri] at hok
        cases hok
      | some ri =>
        cases hp : ri.is_pull with
        | true =>
          rw [get_dataset_pull cb (.resolved r) before db ri hfe hri hp] at hok
          simp at hok
        | false =>
          cases hrp : fetchRepo (.resolved r) (staleDelete (.resolved r) db) with
          | none =>
            rw [get_dataset_norepo cb (.resolved r) before db ri hfe hri hp hrp] at hok
            cases hok
          | some repo =>
            rw [get_dataset_build cb (.resolved r) before db ri repo hfe hri hp hrp] at hok
            simp only [BuildResult.ok.injEq, Option.some.injEq] at hok
            subst hok
            rw [mkData_rcn]
            exact hrcn

/-- C3 witness: the never-returns-stale clause applied at the store
holding the non-stale prior snapshot. -/
theorem stale_supersession_witness :
    priorSnap.resolver_commit_num ≠ -1 :=
  stale_supersession.2.2 cb0 rW 5 dbPrior priorSnap (by decide) (by decide)

/-- C9: when no snapshot exists for the key and cutoff and the fetched
canonical record is a pull request, the builder logs and returns no
snapshot, persisting nothing (the store is exactly the one after the
stale-deletion step, which for an open input is the unchanged store);
the result is not a raise, so the per-item loop continues: the crashed
flag of the run state stays false after such a call. -/
theorem pull_request_abort :
    (∀ (cb : Collab) (iss : InputIssue) (before : Int) (db : DB) (ri : RepoIssue),
      findExisting iss before (staleDelete iss db) = none →
      fetchIssue iss (staleDelete iss db) = some ri →
      ri.is_pull = true →
      get_dataset cb iss before db = (.ok none, staleDelete iss db)) ∧
    (∀ (cb : Collab) (iss : InputIssue) (t : Int) (st : RunState),
      st.crashed = false →
      (get_dataset cb iss t st.db).1 ≠ .crash →
      (callBuilder cb iss t st).crashed = false) := by
  constructor
  · intro cb iss before db ri hfe hri hp
    exact get_dataset_pull cb iss before db ri hfe hri hp
  · intro cb iss t st h0 hnc
    unfold callBuilder
    rw [if_neg (by simp [h0])]
    simp [hnc]

/-- C9 witness: the pull abort and the continuation clause evaluated on
the concrete store whose canonical record for issue 2 is a pull. -/
theorem pull_request_abort_witness :
    get_dataset cb0 (.opened o2) 3 dbC9 =
      (.ok none, staleDelete (.opened o2) dbC9) ∧
    (callBuilder cb0 (.opened o2) 3 ⟨dbC9, [], false⟩).crashed = false := by
  constructor
  · exact pull_request_abort.1 cb0 (.opened o2) 3 dbC9 riP (by decide) (by decide)
      (by decide)
  · exact pull_request_abort.2 cb0 (.opened o2) 3 ⟨dbC9, [], false⟩ rfl (by decide)

theorem callBuilder_of_crashed (cb : Collab) (iss : InputIssue) (t : Int)
    (st : RunState) (h : st.crashed = true) : callBuilder cb iss t st = st := by
  unfold callBuilder
  rw [if_pos h]

theorem callBuilder_trace_of_not_crashed (cb : Collab) (iss : InputIssue)
    (t : Int) (st : RunState) (h : st.crashed = false) :
    (callBuilder cb iss t st).trace =
      st.trace ++ [(iss.owner, iss.name, iss.number, t)] := by
  unfold callBuilder
  rw [if_neg (by simp [h])]

theorem resolvedPhase_of_crashed (cb : Collab) (rs : List ResolvedIssue)
    (st : RunState) (h : st.crashed = true) : resolvedPhase cb rs st = st := by
  induction rs generalizing st with
  | nil => rfl
  | cons i rs ih =>
    show resolvedPhase cb rs (callBuilder cb (.resolved i) i.resolved_at
      (callBuilder cb (.resolved i) i.created_at st)) = st
    rw [callBuilder_of_crashed _ _ _ _ h, callBuilder_of_crashed _ _ _ _ h]
    exact ih st h

/-- The trace the claim describes: per resolved issue, its key at the
creation cutoff then at the resolution cutoff, in order. -/
def twoCutoffTrace : List ResolvedIssue → List (String × String × Int × Int)
  | [] => []
  | i :: rest =>
    (i.owner, i.name, i.number, i.created_at) ::
      (i.owner, i.name, i.number, i.resolved_at) :: twoCutoffTrace rest

theorem openStep_trace_mono (cb : Collab) (st : RunState) (i : OpenIssue) :
    ∃ rest, (openStep cb st i).trace = st.trace ++ rest := by
  unfold openStep
  split
  · exact ⟨[], (List.append_nil _).symm⟩
  · split
    · split
      · exact ⟨[], (List.append_nil _).symm⟩
      · unfold callBuilder
        split
        · exact ⟨[], (List.append_nil _).symm⟩
        · exact ⟨[(i.owner, i.name, i.number, i.updated_at)], rfl⟩
    · unfold callBuilder
      split
      · exact ⟨[], (List.append_nil _).symm⟩
      · exact ⟨[(i.owner, i.name, i.number, i.updated_at)], rfl⟩

theorem openFold_trace_mono (cb : Collab) (os : List OpenIssue) (st : RunState) :
    ∃ rest, (os.foldl (openStep cb) st).trace = st.trace ++ rest := by
  induction os generalizing st with
  | nil => exact ⟨[], (List.append_nil _).symm⟩
  | cons i os ih =>
    simp only [List.foldl_cons]
    obtain ⟨r1, h1⟩ := openStep_trace_mono cb st i
    obtain ⟨r2, h2⟩ := ih (openStep cb st i)
    exact ⟨r1 ++ r2, by rw [h2, h1, List.append_assoc]⟩

/-- C4: in a run of the orchestrator that completes without a raise,
the resolved-issue phase invokes the Snapshot Builder exactly twice per
resolved issue — at the issue's creation time and then at its
resolution time, in that order — and the subsequent open-issue phase
only appends further invocations after them. -/
theorem orchestrator_two_cutoffs :
    (∀ (cb : Collab) (rs : List ResolvedIssue) (st : RunState),
      st.crashed = false → (resolvedPhase cb rs st).crashed = false →
      (resolvedPhase cb rs st).trace = st.trace ++ twoCutoffTrace rs) ∧
    (∀ (cb : Collab) (rs : List ResolvedIssue) (os : List OpenIssue)
      (st : RunState),
      ∃ rest, (get_dataset_with_issues cb rs os st).trace =
        (resolvedPhase cb rs st).trace ++ rest) := by
  constructor
  · intro cb rs
    induction rs with
    | nil =>
      intro st h0 h1
      show st.trace = st.trace ++ twoCutoffTrace []
      rw [twoCutoffTrace, List.append_nil]
    | cons i rs ih =>
      intro st h0 h1
      have hstep : resolvedPhase cb (i :: rs) st =
          resolvedPhase cb rs (callBuilder cb (.resolved i) i.resolved_at
            (callBuilder cb (.resolved i) i.created_at st)) := rfl
      rw [hstep] at h1 ⊢
      set st1 := callBuilder cb (.resolved i) i.created_at st with hst1
      set st2 := callBuilder cb (.resolved i) i.resolved_at st1 with hst2
      have hc2 : st2.crashed = false := by
        by_contra hcc
        rw [Bool.not_eq_false] at hcc
        rw [resolvedPhase_of_crashed cb rs st2 hcc, hcc] at h1
        cases h1
      have hc1 : st1.crashed = false := by
        by_contra hcc
        rw [Bool.not_eq_false] at hcc
        rw [hst2, callBuilder_of_crashed _ _ _ _ hcc] at hc2
        rw [hcc] at hc2
        cases hc2
      rw [ih st2 hc2 h1]
      rw [hst2, callBuilder_trace_of_not_crashed _ _ _ _ hc1]
      rw [hst1, callBuilder_trace_of_not_crashed _ _ _ _ h0]
      show st.trace ++ [(i.owner, i.name, i.number, i.created_at)] ++
        [(i.owner, i.name, i.number, i.resolved_at)] ++ twoCutoffTrace rs = _
    
      rw [twoCutoffTrace]
      simp [List.append_assoc]
  · intro cb rs os st
    exact openFold_trace_mono cb os (resolvedPhase cb rs st)

/-- C4 witness: the two-cutoff trace of a concrete successful run over
one resolved issue. -/
theorem orchestrator_two_cutoffs_witness :
    (resolvedPhase cb0 [rW] ⟨dbBuild, [], false⟩).trace =
      [("o", "n", 1, 0), ("o", "n", 1, 5)] := by
  have h := orchestrator_two_cutoffs.1 cb0 [rW] ⟨dbBuild, [], false⟩ rfl (by decide)
  exact h.trans (by decide)

/-- C10: lock contention is a non-error early exit for both entry
points: with an active (end time unset) BuildLog for the target key —
(owner, name) for the per-repository entry, the empty pair for the
global one — the call returns the store unchanged (no new BuildLog, no
snapshot built, nothing raised); without contention, when the
processing phase completes without a raise, the run ends with exactly
one new BuildLog for the key, closed with the end time set and the
counters filled with the sizes of the issue selections. -/
theorem buildlog_lock :
    (∀ (cb : Collab) (owner name : String) (since : Int) (login : Option String)
      (pid tB tE : Int) (db : DB),
      log_exists owner name db = true →
      get_dataset_for_repo cb owner name since login pid tB tE db = db) ∧
    (∀ (cb : Collab) (owner name : String) (since : Int) (login : Option String)
      (pid tB tE : Int) (db : DB),
      log_exists owner name db = false →
      (repoRun cb owner name since login pid tB db).crashed = false →
      (get_dataset_for_repo cb owner name since login pid tB tE db).buildLogs =
        db.buildLogs ++
          [repoClosedLog owner name login pid tB tE
            (repoOpenSel owner name since (repoDb1 owner name login pid tB db)).length
            (repoResolvedSel owner name since (repoDb1 owner name login pid tB db)).length]) ∧
    (∀ (cb : Collab) (since : Option Int) (pid tB tE : Int) (db : DB),
      log_exists "" "" db = true →
      get_dataset_all cb since pid tB tE db = db) ∧
    (∀ (cb : Collab) (since : Option Int) (pid tB tE : Int) (db : DB),
      log_exists "" "" db = false →
      (allRun cb since pid tB db).crashed = false →
      (get_dataset_all cb since pid tB tE db).buildLogs =
        db.buildLogs ++
          [allClosedLog pid tB tE (allOpenSel since (allDb1 pid tB db)).length
            (allResolvedSel since (allDb1 pid tB db)).length]) := by
  refine ⟨?_, ?_, ?_, ?_⟩
  · intro cb owner name since login pid tB tE db h
    unfold get_dataset_for_repo
    rw [if_pos h]
  · intro cb owner name since login pid tB tE db h hrun
    unfold get_dataset_for_repo
    rw [if_neg (by simp [h])]
    simp only
    rw [if_neg (by simp [hrun])]
  · intro cb since pid tB tE db h
    unfold get_dataset_all
    rw [if_pos h]
  · intro cb since pid tB tE db h hrun
    unfold get_dataset_all
    rw [if_neg (by simp [h])]
    simp only
    rw [if_neg (by simp [hrun])]

/-- C10 witness: both entry points on a locked store (early exit,
store unchanged) and on the empty store (one closed BuildLog with zero
counters). -/
theorem buildlog_lock_witness :
    get_dataset_for_repo cb0 "o" "n" 0 none 1 10 20 dbLock = dbLock ∧
    (get_dataset_for_repo cb0 "o" "n" 0 none 1 10 20 dbEmpty).buildLogs =
      dbEmpty.buildLogs ++
        [repoClosedLog "o" "n" none 1 10 20
          (repoOpenSel "o" "n" 0 (repoDb1 "o" "n" none 1 10 dbEmpty)).length
          (repoResolvedSel "o" "n" 0 (repoDb1 "o" "n" none 1 10 dbEmpty)).length] ∧
    get_dataset_all cb0 none 1 10 20 dbLockAll = dbLockAll ∧
    (get_dataset_all cb0 none 1 10 20 dbEmpty).buildLogs =
      dbEmpty.buildLogs ++
        [allClosedLog 1 10 20 (allOpenSel none (allDb1 1 10 dbEmpty)).length
          (allResolvedSel none (allDb1 1 10 dbEmpty)).length] := by
  refine ⟨?_, ?_, ?_, ?_⟩
  · exact buildlog_lock.1 cb0 "o" "n" 0 none 1 10 20 dbLock (by decide)
  · exact buildlog_lock.2.1 cb0 "o" "n" 0 none 1 10 20 dbEmpty (by decide) (by decide)
  · exact buildlog_lock.2.2.1 cb0 none 1 10 20 dbLockAll (by decide)
  · exact buildlog_lock.2.2.2 cb0 none 1 10 20 dbEmpty (by decide) (by decide)
